import Mathlib

/-!
Shallow embedding of the thoth-station/graph-metrics-exporter job
(`app.py` together with the library helpers in
`thoth/graph_metrics_exporter/common.py` and `configuration.py`).

The embedding follows the source: collectors are pure functions from
their external query result to the list of metric operations they record,
`main` is a function from configuration, the external world and the
requested task name to a run trace, and Python exceptions are explicit
`Option`/`Except` error values.
-/

namespace GraphMetricsExporter

/-- A calendar date as produced by `datetime.date`. -/
structure Date where
  year : Nat
  month : Nat
  day : Nat
deriving DecidableEq, Repr

/-- Numeric key realising Python tuple comparison of `(year, month, day)`
for in-range dates (month below 100, day below 100). -/
def dateKey (d : Date) : Nat :=
  d.year * 10000 + d.month * 100 + d.day

/-- Python `date` strict comparison `a < b`. -/
def dateLt (a b : Date) : Bool :=
  dateKey a < dateKey b

/-- Gregorian leap-year test, as in `calendar`/`datetime`. -/
def isLeap (y : Nat) : Bool :=
  (y % 4 == 0 && y % 100 != 0) || y % 400 == 0

/-- Number of days of month `m` of year `y`. -/
def daysInMonth (y m : Nat) : Nat :=
  if m == 2 then (if isLeap y then 29 else 28)
  else if m == 4 || m == 6 || m == 9 || m == 11 then 30
  else 31

/-- The day before `d` (used to realise `timedelta` subtraction). -/
def prevDay (d : Date) : Date :=
  if d.day > 1 then { d with day := d.day - 1 }
  else if d.month > 1 then
    { d with month := d.month - 1, day := daysInMonth d.year (d.month - 1) }
  else
    { year := d.year - 1, month := 12, day := 31 }

/-- `d - timedelta(days := n)` on valid dates. -/
def subDays (d : Date) : Nat → Date
  | 0 => d
  | n + 1 => subDays (prevDay d) n

/- ### `datetime.strptime(token, "%Y-%m-%d").date()` -/

/-- ASCII decimal digit test. -/
def isDigitChar (c : Char) : Bool :=
  48 ≤ c.toNat && c.toNat ≤ 57

/-- Value of an ASCII decimal digit. -/
def digitVal (c : Char) : Nat :=
  c.toNat - 48

/-- The `%Y` directive: exactly four decimal digits. -/
def parseYear : List Char → Option (Nat × List Char)
  | a :: b :: c :: d :: rest =>
    if isDigitChar a && isDigitChar b && isDigitChar c && isDigitChar d then
      some (digitVal a * 1000 + digitVal b * 100 + digitVal c * 10 + digitVal d, rest)
    else none
  | _ => none

/-- A literal character of the format string. -/
def parseLit (ch : Char) : List Char → Option (List Char)
  | c :: rest => if c == ch then some rest else none
  | _ => none

/-- The `%m` directive, regex alternation `1[0-2]|0[1-9]|[1-9]` in order.
A two-digit branch that fires is never backtracked out of, because the
character that follows it can never satisfy the literal `-` the pattern
demands next. -/
def parseMonth : List Char → Option (Nat × List Char)
  | '1' :: c :: rest =>
    if c == '0' || c == '1' || c == '2' then some (10 + digitVal c, rest)
    else some (1, c :: rest)
  | '0' :: c :: rest =>
    if isDigitChar c && digitVal c ≥ 1 then some (digitVal c, rest)
    else none
  | c :: rest =>
    if isDigitChar c && digitVal c ≥ 1 then some (digitVal c, rest)
    else none
  | [] => none

/-- The `%d` directive, regex alternation `3[01]|[12][0-9]|0[1-9]|[1-9]`
in order; nothing follows it in the pattern, so the greedy choice stands. -/
def parseDay : List Char → Option (Nat × List Char)
  | '3' :: c :: rest =>
    if c == '0' || c == '1' then some (30 + digitVal c, rest)
    else some (3, c :: rest)
  | '1' :: c :: rest =>
    if isDigitChar c then some (10 + digitVal c, rest)
    else some (1, c :: rest)
  | '2' :: c :: rest =>
    if isDigitChar c then some (20 + digitVal c, rest)
    else some (2, c :: rest)
  | '0' :: c :: rest =>
    if isDigitChar c && digitVal c ≥ 1 then some (digitVal c, rest)
    else none
  | c :: rest =>
    if isDigitChar c && digitVal c ≥ 1 then some (digitVal c, rest)
    else none
  | [] => none

/-- `datetime.strptime(cs, "%Y-%m-%d").date()`: match the three directives
separated by literal dashes, demand no unconverted data remain, and apply
the `datetime.date` range validation (year at least 1, day within the
month).  Returns `none` where Python raises `ValueError`. -/
def parseDateFormat (cs : List Char) : Option Date := do
  let (y, r1) ← parseYear cs
  let r2 ← parseLit '-' r1
  let (m, r3) ← parseMonth r2
  let r4 ← parseLit '-' r3
  let (d, r5) ← parseDay r4
  if r5.isEmpty && 1 ≤ y && d ≤ daysInMonth y m then
    some ⟨y, m, d⟩
  else none

/- ### Metric model (`prometheus_client` gauges as used by the source) -/

/-- A gauge declaration: `Gauge(name, help, label_names, registry)`. -/
structure GaugeDecl where
  name : String
  help : String
  labelNames : List String
deriving DecidableEq, Repr

/-- The operation a collector performs on a labelled gauge child. -/
inductive MetricOp where
  | set
  | inc
deriving DecidableEq, Repr

/-- One recorded operation: `gauge.labels(values...).set(v)` or `.inc(v)`. -/
structure MetricEvent where
  gauge : GaugeDecl
  labelValues : List String
  op : MetricOp
  value : ℚ
deriving DecidableEq, Repr

/-- `database_schema_revision_script` declaration in `app.py`. -/
def database_schema_revision_script : GaugeDecl :=
  ⟨"thoth_database_schema_revision_script",
   "Thoth database schema revision from script",
   ["component", "revision", "env"]⟩

/-- `graphdb_is_corrupted` declaration in `app.py`. -/
def graphdb_is_corrupted : GaugeDecl :=
  ⟨"thoth_graphdb_is_corrupted", "amcheck has detected corruption.", ["env"]⟩

/-- `graphdb_pct_bloat_data_table` declaration in `app.py`. -/
def graphdb_pct_bloat_data_table : GaugeDecl :=
  ⟨"thoth_graphdb_pct_bloat_data_table",
   "Bloat data (pct_bloat) per table in Thoth Knowledge Graph.",
   ["table_name", "env"]⟩

/-- `graphdb_mb_bloat_data_table` declaration in `app.py`. -/
def graphdb_mb_bloat_data_table : GaugeDecl :=
  ⟨"thoth_graphdb_mb_bloat_data_table",
   "Bloat data (mb_bloat) per table in Thoth Knowledge Graph.",
   ["table_name", "env"]⟩

/-- `graphdb_pct_index_bloat_data_table` declaration in `app.py`. -/
def graphdb_pct_index_bloat_data_table : GaugeDecl :=
  ⟨"thoth_graphdb_pct_index_bloat_data_table",
   "Index Bloat data (bloat_pct) per table in Thoth Knowledge Graph.",
   ["table_name", "index_name", "env"]⟩

/-- `graphdb_mb_index_bloat_data_table` declaration in `app.py`. -/
def graphdb_mb_index_bloat_data_table : GaugeDecl :=
  ⟨"thoth_graphdb_mb_index_bloat_data_table",
   "Index Bloat data (bloat_mb) per table in Thoth Knowledge Graph.",
   ["table_name", "index_name", "env"]⟩

/-- `graphdb_dump_count` declaration in `app.py`. -/
def graphdb_dump_count : GaugeDecl :=
  ⟨"thoth_graphdb_dump_count", "Number of pg dumps stored on Ceph.", ["env"]⟩

/-- `graphdb_last_dump` declaration in `app.py` — note the label-name
order `["date", "env"]` as written in the source. -/
def graphdb_last_dump : GaugeDecl :=
  ⟨"thoth_graphdb_last_dump", "Last dump date stored on Ceph.", ["date", "env"]⟩

/-- `graphdb_dump_not_cleaned` declaration in `app.py`. -/
def graphdb_dump_not_cleaned : GaugeDecl :=
  ⟨"thoth_graphdb_dump_not_cleaned",
   "Check if the number of dumps on Ceph is higher than expected.", ["env"]⟩

/-- `graphdb_dump_missed` declaration in `app.py`. -/
def graphdb_dump_missed : GaugeDecl :=
  ⟨"thoth_graphdb_dump_missed",
   "Check if the last expected dump is missing.", ["env"]⟩

/- ### Registry semantics: a child keyed by (metric name, label values) -/

/-- Identity of a gauge child: metric name together with label values. -/
abbrev SampleKey := String × List String

/-- Registry contents: current value per existing child. -/
abbrev RegistryState := List (SampleKey × ℚ)

/-- Value of child `k` in the registry, if it exists. -/
def regLookup (st : RegistryState) (k : SampleKey) : Option ℚ :=
  match st with
  | [] => none
  | (k0, v) :: rest => if k0 = k then some v else regLookup rest k

/-- Apply one recorded operation: `set` replaces the child's value,
`inc` adds to it (a fresh child starts at 0). -/
def applyEvent (st : RegistryState) (e : MetricEvent) : RegistryState :=
  let k : SampleKey := (e.gauge.name, e.labelValues)
  match regLookup st k with
  | some v =>
    st.map (fun p => if p.1 = k then (k, match e.op with | .set => e.value | .inc => v + e.value) else p)
  | none => st ++ [(k, e.value)]

/-- Apply a sequence of recorded operations in order. -/
def applyEvents (st : RegistryState) (evs : List MetricEvent) : RegistryState :=
  evs.foldl applyEvent st

/- ### Errors raised by the embedded code -/

/-- Python exceptions the embedded code can raise. -/
inductive RunError where
  | parseError (ident : String)
  | emptyMax
  | keyError (envName : String)
deriving DecidableEq, Repr

/- ### Collectors (`_graph_*` functions of `app.py`) -/

/-- `_graph_corruption_check`: record 1 on the corruption gauge when the
database reports corruption, otherwise 0. -/
def graphCorruptionCheck (deployment : String) (isCorrupted : Bool) : List MetricEvent :=
  if isCorrupted then
    [⟨graphdb_is_corrupted, [deployment], .set, 1⟩]
  else
    [⟨graphdb_is_corrupted, [deployment], .set, 0⟩]

/-- A row of `graph.get_bloat_data()`. -/
structure BloatRow where
  tablename : String
  pct_bloat : ℚ
  mb_bloat : ℚ
deriving DecidableEq, Repr

/-- `_graph_table_bloat_data`: per row set the pct and mb gauges labelled
by (tablename, deployment); on an empty (falsy) result set each gauge once
with its sentinel label and value 0. -/
def graphTableBloatData (deployment : String) (bloat_data : List BloatRow) : List MetricEvent :=
  match bloat_data with
  | [] =>
    [⟨graphdb_pct_bloat_data_table, ["No table pct", deployment], .set, 0⟩,
     ⟨graphdb_mb_bloat_data_table, ["No table mb", deployment], .set, 0⟩]
  | _ =>
    bloat_data.flatMap fun r =>
      [⟨graphdb_pct_bloat_data_table, [r.tablename, deployment], .set, r.pct_bloat⟩,
       ⟨graphdb_mb_bloat_data_table, [r.tablename, deployment], .set, r.mb_bloat⟩]

/-- A row of `graph.get_index_bloat_data()`. -/
structure IndexBloatRow where
  table_name : String
  index_name : String
  bloat_pct : ℚ
  bloat_mb : ℚ
deriving DecidableEq, Repr

/-- `_graph_index_bloat_data`: same pattern as the table-bloat collector
with the extra `index_name` label. -/
def graphIndexBloatData (deployment : String) (index_bloat_data : List IndexBloatRow) : List MetricEvent :=
  match index_bloat_data with
  | [] =>
    [⟨graphdb_pct_index_bloat_data_table, ["No table pct", deployment], .set, 0⟩,
     ⟨graphdb_mb_index_bloat_data_table, ["No table mb", deployment], .set, 0⟩]
  | _ =>
    index_bloat_data.flatMap fun r =>
      [⟨graphdb_pct_index_bloat_data_table, [r.table_name, r.index_name, deployment], .set, r.bloat_pct⟩,
       ⟨graphdb_mb_index_bloat_data_table, [r.table_name, r.index_name, deployment], .set, r.bloat_mb⟩]

/- ### `_graph_database_dumps` -/

/-- `pg_dump[len("pg_dump-"):]` followed by
`datetime.strptime(..., GraphBackupStore._BACKUP_FILE_DATETIME_FORMAT)`
(format `"%Y-%m-%d"`): the source slices the first eight characters off
unconditionally — it never tests that they are the prefix — and parses
the remainder; a `ValueError` from `strptime` is the `ParseError`. -/
def parseDumpIdentifier (s : String) : Except RunError Date :=
  match parseDateFormat (s.data.drop 8) with
  | some d => .ok d
  | none => .error (.parseError s)

/-- Python `max` over a nonempty list: keep the current maximum, replace
it only when a later element compares strictly greater. -/
def pyMax (a : Date) (l : List Date) : Date :=
  l.foldl (fun acc d => if dateLt acc d then d else acc) a

/-- `str(date)` — ISO rendering, zero padded. -/
def pad2 (n : Nat) : String :=
  if n < 10 then "0" ++ toString n else toString n

/-- Four-digit zero padding for the year. -/
def pad4 (n : Nat) : String :=
  if n < 10 then "000" ++ toString n
  else if n < 100 then "00" ++ toString n
  else if n < 1000 then "0" ++ toString n
  else toString n

/-- `str(last_dump_date)` as used for the label value. -/
def dateToIso (d : Date) : String :=
  pad4 d.year ++ "-" ++ pad2 d.month ++ "-" ++ pad2 d.day

/-- `_graph_database_dumps`: parse the whole listing (raising on the first
malformed identifier, before any gauge is touched), set the count and
not-cleaned gauges, then take `max(pg_dumps)` — which raises `ValueError`
on an empty listing after those two gauges were already set — increment
the last-dump gauge labelled `(deployment, str(last_dump_date))`, and set
the missed gauge from the freshness-window comparison.  Returns the
events recorded so far paired with the exception, if one escaped. -/
def graphDatabaseDumps (deployment : String) (rotate checkDays : Nat)
    (today : Date) (listing : List String) : List MetricEvent × Option RunError :=
  match listing.mapM parseDumpIdentifier with
  | .error e => ([], some e)
  | .ok pg_dumps =>
    let n := pg_dumps.length
    let counted : List MetricEvent :=
      [⟨graphdb_dump_count, [deployment], .set, (n : ℚ)⟩,
       ⟨graphdb_dump_not_cleaned, [deployment], .set, if n > rotate then 1 else 0⟩]
    match pg_dumps with
    | [] => (counted, some .emptyMax)
    | d0 :: rest =>
      let last_dump_date := pyMax d0 rest
      let last_expected := subDays today checkDays
      (counted ++
        [⟨graphdb_last_dump, [deployment, dateToIso last_dump_date], .inc, 1⟩,
         ⟨graphdb_dump_missed, [deployment],
          .set, if dateLt last_dump_date last_expected then 1 else 0⟩],
       none)

/- ### Task enumeration and CLI resolution -/

/-- `TaskEnum` of `app.py`, in declaration order. -/
inductive TaskEnum where
  | corruptionCheck
  | tableBloatData
  | indexBloatData
  | databaseDumps
deriving DecidableEq, Repr

/-- `TaskEnum.<member>.value`. -/
def TaskEnum.value : TaskEnum → String
  | .corruptionCheck => "graph_corruption_check"
  | .tableBloatData => "graph_table_bloat_data_check"
  | .indexBloatData => "graph_index_bloat_data_check"
  | .databaseDumps => "graph_database_dumps_check"

/-- The `click.Choice` list `[entity.value for entity in TaskEnum]`. -/
def clickChoices : List String :=
  [TaskEnum.corruptionCheck.value, TaskEnum.tableBloatData.value,
   TaskEnum.indexBloatData.value, TaskEnum.databaseDumps.value]

/-- ASCII lower-casing of one character, as case-insensitive `click.Choice`
matching normalises both sides. -/
def lowerChar (c : Char) : Char :=
  if 65 ≤ c.toNat && c.toNat ≤ 90 then Char.ofNat (c.toNat + 32) else c

/-- Case-normalised character sequence of a string. -/
def lowerStr (s : String) : List Char :=
  s.data.map lowerChar

/-- The usage error `click.Choice` raises for a value outside the choices. -/
inductive ClickError where
  | usageError (given : String)
deriving DecidableEq, Repr

/-- `click.Choice(..., case_sensitive=False)` conversion of the optional
`--task` value: an absent flag passes `None` through; a given value is
matched case-insensitively against the choices and replaced by the
matching declared choice; no match is a usage error aborting before
`main`'s body runs. -/
def clickResolve : Option String → Except ClickError (Option String)
  | none => .ok none
  | some s =>
    match clickChoices.find? (fun c => lowerStr c == lowerStr s) with
    | some c => .ok (some c)
    | none => .error (.usageError s)

/-- Python truthiness of the `task` argument inside `main`: `None` and the
empty string are falsy. -/
def pyTruthy : Option String → Bool
  | none => false
  | some s => !(s == "")

/-- One `task == TaskEnum.X.value or not task` guard of `main`. -/
def taskSelected (task : Option String) (v : String) : Bool :=
  task == some v || !(pyTruthy task)

/- ### Configuration and the external world -/

/-- Configuration `main` runs under, read from the environment at import
time (`THOTH_DEPLOYMENT_NAME`, `GraphBackupStore.GRAPH_BACKUP_STORE_ROTATE`,
`THOTH_GRAPH_BACKUP_CHECK_DAYS`). -/
structure Config where
  deploymentName : String
  rotate : Nat
  checkDays : Nat
deriving DecidableEq, Repr

/-- What one `push_to_gateway` call does: succeeds, or raises the given
exception message. -/
abbrev PushBehavior := Option String

/-- Responses of the external collaborators during one run. -/
structure World where
  isCorrupted : Bool
  bloatData : List BloatRow
  indexBloatData : List IndexBloatRow
  listing : List String
  today : Date
  alembicHead : String
  pushRaises : PushBehavior
deriving DecidableEq, Repr

/-- Outcome of the `_send_metrics` push attempt. -/
inductive PushOutcome where
  | notReached
  | pushed
  | caught (msg : String)
deriving DecidableEq, Repr

/-- Observable trace of one `main` invocation. -/
structure MainTrace where
  graphConnected : Bool
  adapterConnected : Bool
  collectorsRun : List TaskEnum
  events : List MetricEvent
  pushAttempted : Bool
  pushOutcome : PushOutcome
  error : Option RunError
  terminalLogged : Bool
deriving DecidableEq, Repr

/-- The database-dumps step of `main`: runs only when selected. -/
def mainDumpsRes (cfg : Config) (w : World) (task : Option String) :
    List MetricEvent × Option RunError :=
  if taskSelected task TaskEnum.databaseDumps.value then
    graphDatabaseDumps cfg.deploymentName cfg.rotate cfg.checkDays w.today w.listing
  else ([], none)

/-- `main(task)` of `app.py`, after click conversion: create the common
schema-revision metric, connect the database client and — unconditionally —
the backup-store adapter, run each selected collector in `TaskEnum` order,
then `_send_metrics` and the terminal completion log.  An exception
escaping the dumps collector aborts the run before the push and the
terminal log. -/
def mainRun (cfg : Config) (w : World) (task : Option String) : MainTrace :=
  let commonEvs : List MetricEvent :=
    [⟨database_schema_revision_script,
      ["graph-metrics-exporter", w.alembicHead, cfg.deploymentName], .inc, 1⟩]
  let selCorr := taskSelected task TaskEnum.corruptionCheck.value
  let selTable := taskSelected task TaskEnum.tableBloatData.value
  let selIndex := taskSelected task TaskEnum.indexBloatData.value
  let selDumps := taskSelected task TaskEnum.databaseDumps.value
  let corrEvs := if selCorr then graphCorruptionCheck cfg.deploymentName w.isCorrupted else []
  let tableEvs := if selTable then graphTableBloatData cfg.deploymentName w.bloatData else []
  let indexEvs := if selIndex then graphIndexBloatData cfg.deploymentName w.indexBloatData else []
  let dres := mainDumpsRes cfg w task
  let aborted := dres.2.isSome
  { graphConnected := true
    adapterConnected := true
    collectorsRun :=
      (if selCorr then [TaskEnum.corruptionCheck] else []) ++
      (if selTable then [TaskEnum.tableBloatData] else []) ++
      (if selIndex then [TaskEnum.indexBloatData] else []) ++
      (if selDumps then [TaskEnum.databaseDumps] else [])
    events := commonEvs ++ corrEvs ++ tableEvs ++ indexEvs ++ dres.1
    pushAttempted := !aborted
    pushOutcome :=
      if aborted then .notReached
      else match w.pushRaises with
        | some e => .caught e
        | none => .pushed
    error := dres.2
    terminalLogged := !aborted }

/- ### Environment reading in `app.py` and the library helpers -/

/-- The module-level configuration reads of `app.py`:
`os.environ["PROMETHEUS_PUSHGATEWAY_URL"]` and
`os.environ["THOTH_DEPLOYMENT_NAME"]` — a plain subscript, which raises
`KeyError` when the variable is unset. -/
def appReadConfig (env : String → Option String) : Except RunError (String × String) :=
  match env "PROMETHEUS_PUSHGATEWAY_URL" with
  | none => .error (.keyError "PROMETHEUS_PUSHGATEWAY_URL")
  | some url =>
    match env "THOTH_DEPLOYMENT_NAME" with
    | none => .error (.keyError "THOTH_DEPLOYMENT_NAME")
    | some dep => .ok (url, dep)

/-- Outcome of the library helper `send_metrics` in
`thoth/graph_metrics_exporter/common.py`. -/
inductive SendOutcome where
  | pushed
  | caught (msg : String)
  | skippedWithWarning
deriving DecidableEq, Repr

/-- `send_metrics` of `common.py`: push only when both the pushgateway URL
and the deployment name are truthy, catching and logging any exception the
push raises; otherwise log a warning and do nothing. -/
def common_send_metrics (url dep : Option String) (pushRaises : PushBehavior) : SendOutcome :=
  if pyTruthy url && pyTruthy dep then
    match pushRaises with
    | some e => .caught e
    | none => .pushed
  else .skippedWithWarning

/-- `create_common_metrics` of `common.py`: record the schema-revision
metric only when the deployment name is truthy, otherwise warn; returns
the recorded events and whether the warning path was taken. -/
def common_create_common_metrics (dep : Option String)
    (componentName alembicHead : String) : List MetricEvent × Bool :=
  match dep with
  | some d =>
    if d == "" then ([], true)
    else ([⟨database_schema_revision_script, [componentName, alembicHead, d], .inc, 1⟩], false)
  | none => ([], true)

/-- Decidable equality on `Except`, so concrete runs can be checked by
`decide`. -/
instance {ε α : Type} [DecidableEq ε] [DecidableEq α] : DecidableEq (Except ε α)
  | .ok a, .ok b =>
    decidable_of_iff (a = b) ⟨fun h => by rw [h], fun h => by cases h; rfl⟩
  | .error e, .error f =>
    decidable_of_iff (e = f) ⟨fun h => by rw [h], fun h => by cases h; rfl⟩
  | .ok _, .error _ => isFalse (fun h => Except.noConfusion h)
  | .error _, .ok _ => isFalse (fun h => Except.noConfusion h)

/- ### Helper lemmas -/

theorem dateLt_false_iff (a b : Date) : dateLt a b = false ↔ dateKey b ≤ dateKey a := by
  simp [dateLt, Nat.not_lt]

theorem pyMax_step (a x : Date) (l : List Date) :
    pyMax a (x :: l) = pyMax (if dateLt a x then x else a) l := rfl

theorem pyMax_mem (l : List Date) : ∀ a, pyMax a l ∈ a :: l := by
  induction l with
  | nil => intro a; simp [pyMax]
  | cons x l ih =>
    intro a
    rw [pyMax_step]
    rcases List.mem_cons.mp (ih (if dateLt a x then x else a)) with h1 | h2
    · rw [h1]
      by_cases hb : dateLt a x = true <;> simp [hb, List.mem_cons]
    · simp only [List.mem_cons]
      exact Or.inr (Or.inr h2)

theorem pyMax_key_le (l : List Date) :
    ∀ a, ∀ d ∈ a :: l, dateKey d ≤ dateKey (pyMax a l) := by
  induction l with
  | nil =>
    intro a d hd
    rcases List.mem_cons.mp hd with h | h
    · rw [h]; simp [pyMax]
    · simp at h
  | cons x l ih =>
    intro a d hd
    rw [pyMax_step]
    have hka : dateKey a ≤ dateKey (if dateLt a x then x else a) := by
      by_cases hb : dateLt a x = true
      · simp only [hb, if_true]
        exact Nat.le_of_lt (of_decide_eq_true hb)
      · simp [hb]
    have hkx : dateKey x ≤ dateKey (if dateLt a x then x else a) := by
      by_cases hb : dateLt a x = true
      · simp [hb]
      · have hfalse : dateLt a x = false := by
          revert hb; cases dateLt a x <;> simp
        simp only [hfalse, Bool.false_eq_true, if_false]
        exact (dateLt_false_iff a x).mp hfalse
    have htop := ih (if dateLt a x then x else a) _ (List.mem_cons_self _ _)
    rcases List.mem_cons.mp hd with h | h
    · rw [h]; exact le_trans hka htop
    · rcases List.mem_cons.mp h with h2 | h2
      · rw [h2]; exact le_trans hkx htop
      · exact ih _ d (List.mem_cons_of_mem _ h2)

theorem pyMax_not_lt (a : Date) (l : List Date) :
    ∀ d ∈ a :: l, dateLt (pyMax a l) d = false := by
  intro d hd
  exact (dateLt_false_iff _ _).mpr (pyMax_key_le l a d hd)

/- ### Claim theorems -/

/-- Claim C1: the claim says an empty backup listing must not crash the
run and must surface as a "missed" condition.  The code instead reaches
`max(pg_dumps)` on the empty list, raising `ValueError` after the count
and not-cleaned gauges were set: the run aborts with the exception, no
missed sample is recorded, the push is never attempted and the terminal
completion log is never reached. -/
theorem c1_empty_listing_aborts_run :
    graphDatabaseDumps "ocp" 7 7 ⟨2021, 1, 10⟩ [] =
      ([⟨graphdb_dump_count, ["ocp"], .set, 0⟩,
        ⟨graphdb_dump_not_cleaned, ["ocp"], .set, 0⟩], some .emptyMax) ∧
    (mainRun ⟨"ocp", 7, 7⟩ ⟨false, [], [], [], ⟨2021, 1, 10⟩, "head", none⟩
        (some "graph_database_dumps_check")).error = some .emptyMax ∧
    (mainRun ⟨"ocp", 7, 7⟩ ⟨false, [], [], [], ⟨2021, 1, 10⟩, "head", none⟩
        (some "graph_database_dumps_check")).terminalLogged = false ∧
    (mainRun ⟨"ocp", 7, 7⟩ ⟨false, [], [], [], ⟨2021, 1, 10⟩, "head", none⟩
        (some "graph_database_dumps_check")).pushAttempted = false ∧
    ¬ (⟨graphdb_dump_missed, ["ocp"], .set, 1⟩ : MetricEvent) ∈
      (graphDatabaseDumps "ocp" 7 7 ⟨2021, 1, 10⟩ []).1 := by
  decide

/-- Claim C2, counterexample: the claim says an identifier that does not
start with `"pg_dump-"` makes the run fail with `ParseError`.  The code
slices off the first eight characters without ever checking them, so
`"xx_dump-2021-01-01"` — whose first eight characters are not the prefix
— parses successfully. -/
theorem c2_counterexample_marker_unchecked :
    "xx_dump-2021-01-01".data.take 8 ≠ "pg_dump-".data ∧
    parseDumpIdentifier "xx_dump-2021-01-01" = .ok ⟨2021, 1, 1⟩ := by
  constructor
  · decide
  · rfl

/-- Claim C2, amended: `ParseError` is raised exactly when the token left
after dropping the first eight characters fails the fixed date format —
the prefix content itself is never checked.  An identifier that is the
prefix followed by a well-formed date never raises, and a listing whose
parse raises yields no metric events for this task. -/
theorem c2_parse_error_behaviour :
    (∀ (d : String) (date : Date), parseDateFormat d.data = some date →
      parseDumpIdentifier ("pg_dump-" ++ d) = .ok date) ∧
    (∀ s : String, parseDateFormat (s.data.drop 8) = none →
      parseDumpIdentifier s = .error (.parseError s)) ∧
    (∀ (dep : String) (rotate checkDays : Nat) (today : Date)
        (listing : List String) (e : RunError),
      listing.mapM parseDumpIdentifier = .error e →
      graphDatabaseDumps dep rotate checkDays today listing = ([], some e)) := by
  refine ⟨?_, ?_, ?_⟩
  · intro d date h
    have hdrop : ("pg_dump-" ++ d).data.drop 8 = d.data := by
      have h8 : ("pg_dump-".data).length = 8 := rfl
      rw [String.data_append, ← h8]
      exact List.drop_left _ _
    unfold parseDumpIdentifier
    rw [hdrop, h]
  · intro s h
    unfold parseDumpIdentifier
    rw [h]
  · intro dep rotate checkDays today listing e h
    unfold graphDatabaseDumps
    rw [h]

/-- Claim C2, witness for the amended theorem at concrete inputs. -/
theorem c2_parse_error_behaviour_witness :
    parseDumpIdentifier ("pg_dump-" ++ "2021-01-08") = .ok ⟨2021, 1, 8⟩ ∧
    parseDumpIdentifier "pg_dump-xx" = .error (.parseError "pg_dump-xx") ∧
    graphDatabaseDumps "ocp" 7 7 ⟨2021, 1, 10⟩ ["bad"] =
      ([], some (.parseError "bad")) := by
  refine ⟨?_, ?_, ?_⟩
  · exact c2_parse_error_behaviour.1 "2021-01-08" ⟨2021, 1, 8⟩ (by decide)
  · exact c2_parse_error_behaviour.2.1 "pg_dump-xx" (by decide)
  · exact c2_parse_error_behaviour.2.2 "ocp" 7 7 ⟨2021, 1, 10⟩ ["bad"]
      (.parseError "bad") rfl

/-- Claim C3, counterexample: a run selecting only the corruption check
still connects the backup-store adapter — `main` calls `adapter.connect()`
unconditionally, before looking at the selected task. -/
theorem c3_counterexample_adapter_always_connected :
    (mainRun ⟨"ocp", 7, 7⟩ ⟨false, [], [], [], ⟨2021, 1, 10⟩, "head", none⟩
        (some "graph_corruption_check")).collectorsRun = [.corruptionCheck] ∧
    (mainRun ⟨"ocp", 7, 7⟩ ⟨false, [], [], [], ⟨2021, 1, 10⟩, "head", none⟩
        (some "graph_corruption_check")).adapterConnected = true := by
  decide

/-- Claim C3, amended: `main` establishes both the database connection and
the object-store adapter connection on every run, whatever task was
selected. -/
theorem c3_connections_unconditional (cfg : Config) (w : World) (task : Option String) :
    (mainRun cfg w task).adapterConnected = true ∧
    (mainRun cfg w task).graphConnected = true :=
  ⟨rfl, rfl⟩

/-- Claim C4, counterexample: the claim says a missing pushgateway URL or
deployment name degrades with a warning and raises no error.  The `app.py`
entry point reads both with `os.environ[...]` at import time, which raises
`KeyError` when the variable is unset — even when the other one is set. -/
theorem c4_counterexample_missing_env_raises :
    appReadConfig (fun _ => none) = .error (.keyError "PROMETHEUS_PUSHGATEWAY_URL") ∧
    appReadConfig (fun n => if n = "THOTH_DEPLOYMENT_NAME" then some "ocp" else none) =
      .error (.keyError "PROMETHEUS_PUSHGATEWAY_URL") ∧
    appReadConfig (fun n => if n = "PROMETHEUS_PUSHGATEWAY_URL" then some "url" else none) =
      .error (.keyError "THOTH_DEPLOYMENT_NAME") := by
  refine ⟨rfl, ?_, ?_⟩ <;> decide

/-- Claim C4, amended: the library helpers in `common.py` do degrade —
`send_metrics` skips the push with a warning when either variable is
falsy, and `create_common_metrics` records nothing and warns when the
deployment name is falsy — but the `app.py` entry point aborts with
`KeyError` at startup when either variable is unset. -/
theorem c4_degraded_in_common_fatal_in_app :
    (∀ (url dep : Option String) (pr : PushBehavior),
      pyTruthy url = false ∨ pyTruthy dep = false →
      common_send_metrics url dep pr = .skippedWithWarning) ∧
    (∀ cn ah : String,
      common_create_common_metrics none cn ah = ([], true) ∧
      common_create_common_metrics (some "") cn ah = ([], true)) ∧
    (∀ env : String → Option String, env "PROMETHEUS_PUSHGATEWAY_URL" = none →
      appReadConfig env = .error (.keyError "PROMETHEUS_PUSHGATEWAY_URL")) := by
  refine ⟨?_, ?_, ?_⟩
  · intro url dep pr h
    rcases h with h | h <;> simp [common_send_metrics, h]
  · intro cn ah
    exact ⟨rfl, rfl⟩
  · intro env h
    unfold appReadConfig
    rw [h]

/-- Claim C4, witness for the amended theorem at concrete inputs. -/
theorem c4_degraded_in_common_fatal_in_app_witness :
    common_send_metrics none (some "ocp") none = .skippedWithWarning ∧
    common_create_common_metrics none "graph-metrics-exporter" "head" = ([], true) ∧
    appReadConfig (fun _ => none) = .error (.keyError "PROMETHEUS_PUSHGATEWAY_URL") := by
  refine ⟨?_, ?_, ?_⟩
  · exact c4_degraded_in_common_fatal_in_app.1 none (some "ocp") none (Or.inl rfl)
  · exact (c4_degraded_in_common_fatal_in_app.2.1 "graph-metrics-exporter" "head").1
  · exact c4_degraded_in_common_fatal_in_app.2.2 (fun _ => none) rfl

/-- Claim C5: whenever the push transport call raises, `_send_metrics`
catches and logs the exception and returns normally; the run records no
uncaught error and still reaches the terminal completion log line. -/
theorem c5_push_failure_never_fatal (cfg : Config) (w : World) (task : Option String)
    (e : String) (hp : w.pushRaises = some e)
    (hatt : (mainRun cfg w task).pushAttempted = true) :
    (mainRun cfg w task).pushOutcome = .caught e ∧
    (mainRun cfg w task).error = none ∧
    (mainRun cfg w task).terminalLogged = true := by
  have habort : (mainDumpsRes cfg w task).2.isSome = false := by
    have h : (!(mainDumpsRes cfg w task).2.isSome) = true := hatt
    cases hs : (mainDumpsRes cfg w task).2.isSome
    · rfl
    · rw [hs] at h; exact absurd h (by decide)
  have herr : (mainDumpsRes cfg w task).2 = none := by
    cases ho : (mainDumpsRes cfg w task).2
    · rfl
    · rw [ho] at habort; simp at habort
  refine ⟨?_, ?_, ?_⟩ <;> simp [mainRun, herr, hp]

/-- Claim C5, witness: a corruption-only run whose push raises `"boom"`. -/
theorem c5_push_failure_never_fatal_witness :
    (mainRun ⟨"ocp", 7, 7⟩ ⟨false, [], [], [], ⟨2021, 1, 10⟩, "head", some "boom"⟩
        (some "graph_corruption_check")).pushOutcome = .caught "boom" ∧
    (mainRun ⟨"ocp", 7, 7⟩ ⟨false, [], [], [], ⟨2021, 1, 10⟩, "head", some "boom"⟩
        (some "graph_corruption_check")).error = none ∧
    (mainRun ⟨"ocp", 7, 7⟩ ⟨false, [], [], [], ⟨2021, 1, 10⟩, "head", some "boom"⟩
        (some "graph_corruption_check")).terminalLogged = true :=
  c5_push_failure_never_fatal ⟨"ocp", 7, 7⟩
    ⟨false, [], [], [], ⟨2021, 1, 10⟩, "head", some "boom"⟩
    (some "graph_corruption_check") "boom" rfl (by decide)

/-- Claim C6: the table-bloat collector records exactly one sentinel
sample of value 0 per gauge on an empty result, and on a nonempty result
one pct and one mb sample per row labelled `(tablename, deployment)`,
every emitted sample labelled by some actual row. -/
theorem c6_table_bloat_samples (dep : String) :
    (graphTableBloatData dep [] =
      [⟨graphdb_pct_bloat_data_table, ["No table pct", dep], .set, 0⟩,
       ⟨graphdb_mb_bloat_data_table, ["No table mb", dep], .set, 0⟩]) ∧
    (∀ rows : List BloatRow, rows ≠ [] →
      graphTableBloatData dep rows =
        rows.flatMap (fun r =>
          [⟨graphdb_pct_bloat_data_table, [r.tablename, dep], .set, r.pct_bloat⟩,
           ⟨graphdb_mb_bloat_data_table, [r.tablename, dep], .set, r.mb_bloat⟩]) ∧
      ∀ e ∈ graphTableBloatData dep rows, ∃ r ∈ rows,
        e.labelValues = [r.tablename, dep] ∧
        (e.value = r.pct_bloat ∨ e.value = r.mb_bloat)) := by
  constructor
  · rfl
  · intro rows hne
    match rows, hne with
    | r :: rs, _ =>
      refine ⟨rfl, ?_⟩
      intro e he
      have he' : e ∈ (r :: rs).flatMap (fun r =>
          [⟨graphdb_pct_bloat_data_table, [r.tablename, dep], .set, r.pct_bloat⟩,
           ⟨graphdb_mb_bloat_data_table, [r.tablename, dep], .set, r.mb_bloat⟩]) := he
      rw [List.mem_flatMap] at he'
      obtain ⟨row, hrow, hmem⟩ := he'
      rcases List.mem_cons.mp hmem with h | h
      · exact ⟨row, hrow, by rw [h], Or.inl (by rw [h])⟩
      · rcases List.mem_cons.mp h with h2 | h2
        · exact ⟨row, hrow, by rw [h2], Or.inr (by rw [h2])⟩
        · simp at h2

/-- Claim C6, witness: the spec's example row. -/
theorem c6_table_bloat_samples_witness :
    graphTableBloatData "ocp" [⟨"a", 12.5, 3⟩] =
      [⟨graphdb_pct_bloat_data_table, ["a", "ocp"], .set, 12.5⟩,
       ⟨graphdb_mb_bloat_data_table, ["a", "ocp"], .set, 3⟩] := by
  have h := ((c6_table_bloat_samples "ocp").2 [⟨"a", 12.5, 3⟩] (by decide)).1
  exact h.trans rfl

/-- Claim C7: on a listing that parses to a nonempty date list, the dumps
collector sets the count gauge to the number of parsed dates, sets the
not-cleaned gauge to 1 exactly when that count exceeds the retention
constant, increments the last-dump gauge labelled with the maximum parsed
date, and sets the missed gauge to 1 exactly when that maximum is older
than the current date minus the freshness window. -/
theorem c7_dumps_gauges (dep : String) (rotate checkDays : Nat) (today : Date)
    (listing : List String) (d0 : Date) (rest : List Date)
    (hparse : listing.mapM parseDumpIdentifier = Except.ok (d0 :: rest)) :
    graphDatabaseDumps dep rotate checkDays today listing =
      ([⟨graphdb_dump_count, [dep], .set, ((d0 :: rest).length : ℚ)⟩,
        ⟨graphdb_dump_not_cleaned, [dep], .set,
          if (d0 :: rest).length > rotate then 1 else 0⟩,
        ⟨graphdb_last_dump, [dep, dateToIso (pyMax d0 rest)], .inc, 1⟩,
        ⟨graphdb_dump_missed, [dep], .set,
          if dateLt (pyMax d0 rest) (subDays today checkDays) then 1 else 0⟩],
       none) ∧
    pyMax d0 rest ∈ d0 :: rest ∧
    (∀ d ∈ d0 :: rest, dateLt (pyMax d0 rest) d = false) ∧
    ((if (d0 :: rest).length > rotate then (1 : ℚ) else 0) = 1 ↔
      (d0 :: rest).length > rotate) ∧
    ((if dateLt (pyMax d0 rest) (subDays today checkDays) then (1 : ℚ) else 0) = 1 ↔
      dateLt (pyMax d0 rest) (subDays today checkDays) = true) := by
  refine ⟨?_, pyMax_mem rest d0, pyMax_not_lt d0 rest, ?_, ?_⟩
  · unfold graphDatabaseDumps
    rw [hparse]
    rfl
  · constructor
    · intro h
      by_contra hn
      rw [if_neg hn] at h
      exact one_ne_zero h.symm
    · intro h
      rw [if_pos h]
  · constructor
    · intro h
      by_contra hn
      rw [if_neg hn] at h
      exact one_ne_zero h.symm
    · intro h
      rw [if_pos h]

/-- Claim C7, witness: the spec's example — two dumps, retention 7,
current date 2021-01-10, window 7 days. -/
theorem c7_dumps_gauges_witness :
    graphDatabaseDumps "ocp" 7 7 ⟨2021, 1, 10⟩
        ["pg_dump-2021-01-01", "pg_dump-2021-01-08"] =
      ([⟨graphdb_dump_count, ["ocp"], .set, 2⟩,
        ⟨graphdb_dump_not_cleaned, ["ocp"], .set, 0⟩,
        ⟨graphdb_last_dump, ["ocp", "2021-01-08"], .inc, 1⟩,
        ⟨graphdb_dump_missed, ["ocp"], .set, 0⟩], none) := by
  have h := c7_dumps_gauges "ocp" 7 7 ⟨2021, 1, 10⟩
    ["pg_dump-2021-01-01", "pg_dump-2021-01-08"] ⟨2021, 1, 1⟩ [⟨2021, 1, 8⟩] rfl
  exact h.1.trans (by decide)

/-- Claim C8: setting the corruption gauge to 1 and then to 0 for the same
deployment leaves the registry child at 0 — a SET replaces the prior value
for the same sample identity. -/
theorem c8_set_replaces (dep : String) :
    regLookup
      (applyEvents []
        (graphCorruptionCheck dep true ++ graphCorruptionCheck dep false))
      ("thoth_graphdb_is_corrupted", [dep]) = some 0 := by
  simp [graphCorruptionCheck, applyEvents, applyEvent, regLookup,
    graphdb_is_corrupted, List.foldl]

theorem clickResolve_some (s : String) :
    clickResolve (some s) =
      match clickChoices.find? (fun c => lowerStr c == lowerStr s) with
      | some c => .ok (some c)
      | none => .error (.usageError s) := rfl

/-- Claim C9: task resolution — an absent or empty task name selects all
four tasks in catalog order; a name matching a known task value
case-insensitively is normalised by the CLI layer to that value and runs
exactly that collector; a name matching nothing is rejected with a usage
error before `main` runs. -/
theorem c9_task_resolution :
    (clickResolve none = .ok none ∧
     ∀ (cfg : Config) (w : World),
       (mainRun cfg w none).collectorsRun =
         [.corruptionCheck, .tableBloatData, .indexBloatData, .databaseDumps] ∧
       (mainRun cfg w (some "")).collectorsRun =
         [.corruptionCheck, .tableBloatData, .indexBloatData, .databaseDumps]) ∧
    (∀ (t : TaskEnum) (s : String), lowerStr s = lowerStr t.value →
      clickResolve (some s) = .ok (some t.value) ∧
      ∀ (cfg : Config) (w : World),
        (mainRun cfg w (some t.value)).collectorsRun = [t]) ∧
    (∀ s : String, (∀ t : TaskEnum, lowerStr s ≠ lowerStr t.value) →
      clickResolve (some s) = .error (.usageError s)) := by
  refine ⟨⟨rfl, fun cfg w => ⟨rfl, rfl⟩⟩, ?_, ?_⟩
  · intro t s h
    cases t with
    | corruptionCheck =>
      have hf : clickChoices.find? (fun c => lowerStr c == lowerStr s) =
          some TaskEnum.corruptionCheck.value := by
        simp only [h]; rfl
      exact ⟨by rw [clickResolve_some, hf], fun cfg w => rfl⟩
    | tableBloatData =>
      have hf : clickChoices.find? (fun c => lowerStr c == lowerStr s) =
          some TaskEnum.tableBloatData.value := by
        simp only [h]; rfl
      exact ⟨by rw [clickResolve_some, hf], fun cfg w => rfl⟩
    | indexBloatData =>
      have hf : clickChoices.find? (fun c => lowerStr c == lowerStr s) =
          some TaskEnum.indexBloatData.value := by
        simp only [h]; rfl
      exact ⟨by rw [clickResolve_some, hf], fun cfg w => rfl⟩
    | databaseDumps =>
      have hf : clickChoices.find? (fun c => lowerStr c == lowerStr s) =
          some TaskEnum.databaseDumps.value := by
        simp only [h]; rfl
      exact ⟨by rw [clickResolve_some, hf], fun cfg w => rfl⟩
  · intro s h
    have hf : clickChoices.find? (fun c => lowerStr c == lowerStr s) = none := by
      rw [List.find?_eq_none]
      intro x hx
      simp only [clickChoices, List.mem_cons, List.not_mem_nil, or_false] at hx
      simp only [beq_iff_eq]
      rcases hx with hx | hx | hx | hx
      · rw [hx]; intro heq; exact h .corruptionCheck heq.symm
      · rw [hx]; intro heq; exact h .tableBloatData heq.symm
      · rw [hx]; intro heq; exact h .indexBloatData heq.symm
      · rw [hx]; intro heq; exact h .databaseDumps heq.symm
    rw [clickResolve_some, hf]

/-- Claim C9, witness: a mixed-case known name, an unknown name, and the
run-everything mode. -/
theorem c9_task_resolution_witness :
    clickResolve (some "GRAPH_Corruption_CHECK") = .ok (some "graph_corruption_check") ∧
    (mainRun ⟨"ocp", 7, 7⟩ ⟨false, [], [], [], ⟨2021, 1, 10⟩, "head", none⟩
        (some "graph_corruption_check")).collectorsRun = [.corruptionCheck] ∧
    clickResolve (some "bogus") = .error (.usageError "bogus") ∧
    (mainRun ⟨"ocp", 7, 7⟩ ⟨false, [], [], [], ⟨2021, 1, 10⟩, "head", none⟩
        none).collectorsRun =
      [.corruptionCheck, .tableBloatData, .indexBloatData, .databaseDumps] := by
  refine ⟨?_, ?_, ?_, ?_⟩
  · exact (c9_task_resolution.2.1 .corruptionCheck "GRAPH_Corruption_CHECK" (by decide)).1
  · exact (c9_task_resolution.2.1 .corruptionCheck "GRAPH_Corruption_CHECK" (by decide)).2
      ⟨"ocp", 7, 7⟩ ⟨false, [], [], [], ⟨2021, 1, 10⟩, "head", none⟩
  · exact c9_task_resolution.2.2 "bogus" (by intro t; cases t <;> decide)
  · exact (c9_task_resolution.1.2 ⟨"ocp", 7, 7⟩
      ⟨false, [], [], [], ⟨2021, 1, 10⟩, "head", none⟩).1

/-- Claim C10: `thoth_graphdb_last_dump` is declared with label names
`["date", "env"]`, and the backup-dump collector records its sample with
the deployment name first and the dump date second, so the published
sample carries the deployment under `"date"` and the date under `"env"`. -/
theorem c10_last_dump_label_swap (dep : String) (rotate checkDays : Nat)
    (today : Date) (listing : List String) (d0 : Date) (rest : List Date)
    (hparse : listing.mapM parseDumpIdentifier = Except.ok (d0 :: rest)) :
    ((graphDatabaseDumps dep rotate checkDays today listing).1.filter
        (fun e => e.gauge.name == "thoth_graphdb_last_dump")) =
      [⟨graphdb_last_dump, [dep, dateToIso (pyMax d0 rest)], .inc, 1⟩] ∧
    graphdb_last_dump.labelNames = ["date", "env"] ∧
    (graphdb_last_dump.labelNames).zip [dep, dateToIso (pyMax d0 rest)] =
      [("date", dep), ("env", dateToIso (pyMax d0 rest))] := by
  refine ⟨?_, rfl, rfl⟩
  unfold graphDatabaseDumps
  rw [hparse]
  rfl

/-- Claim C10, witness: one well-formed dump identifier. -/
theorem c10_last_dump_label_swap_witness :
    ((graphDatabaseDumps "ocp" 7 7 ⟨2021, 1, 10⟩ ["pg_dump-2021-01-08"]).1.filter
        (fun e => e.gauge.name == "thoth_graphdb_last_dump")) =
      [⟨graphdb_last_dump, ["ocp", "2021-01-08"], .inc, 1⟩] ∧
    (graphdb_last_dump.labelNames).zip ["ocp", "2021-01-08"] =
      [("date", "ocp"), ("env", "2021-01-08")] := by
  have h := c10_last_dump_label_swap "ocp" 7 7 ⟨2021, 1, 10⟩
    ["pg_dump-2021-01-08"] ⟨2021, 1, 8⟩ [] rfl
  exact ⟨h.1.trans (by decide), h.2.2.trans (by decide)⟩

end GraphMetricsExporter
